import Mathlib

/-!
Verification of the 3D fan simulation (src/fan_3d_simulation.py).

This file gives a shallow embedding of the `Fan3D` class: its mutable state,
the physics step `update_physics`, the archetype configuration table
`configure_fan`, the four geometry generators and the per-face shading
routine `apply_lighting`, and proves the specification's claims about them.

Modelling conventions:
  * Python floats are modelled by exact rationals (for the physics state,
    whose arithmetic is all rational) and by real numbers (for the geometry,
    which uses `sin`/`cos`/`sqrt`).  The claims under study are about the
    algorithmic structure of the code, not about binary rounding.
  * The rotation attribute `self.angle` is always a rational multiple of π
    (it starts at 0 and each step adds `current_speed * dt * np.pi`), so the
    state stores the coefficient: the field `angle` below holds
    `self.angle / π`.  The wrap `self.angle %= 2*np.pi` becomes an exact
    rational reduction of the coefficient modulo 2, and the real-valued
    rotation angle of the code is recovered as `angle * π` in the theorems.
  * Python's float modulo `x % y` is `x - ⌊x / y⌋ * y` (sign of the divisor),
    embedded as `pymod` below.
  * `np.linspace(a, b, n)` produces the `n` points `a + i*(b-a)/(n-1)`,
    including both endpoints; the generators below spell those points out.
-/

/-- Lighting mode of the fan (`self.lighting_mode`, one of the three strings
cycled by the `L` key: realistic, flat, dramatic). -/
inductive LightingMode where
  | realistic : LightingMode
  | flat : LightingMode
  | dramatic : LightingMode

/-- Per-archetype configuration record: the six fields `configure_fan`
(src lines 54-105) writes to the instance. -/
structure FanConfig where
  blade_count : ℕ
  blade_length : ℚ
  blade_width : ℚ
  motor_radius : ℚ
  has_stand : Bool
  tilt_angle : ℚ

/-- Mutable state of a `Fan3D` instance: the attributes written by
`__init__` and `configure_fan` (src lines 27-105) that the claims mention.
`angle` stores the coefficient of π of the code's `self.angle` (see the
header comment); all other numeric fields are the code's values exactly. -/
structure FanState where
  fan_type : String
  angle : ℚ
  max_speed : ℚ
  is_on : Bool
  oscillate : Bool
  oscillate_angle : ℚ
  oscillate_direction : ℚ
  oscillate_range : ℚ
  blade_count : ℕ
  lighting_mode : LightingMode
  blade_length : ℚ
  blade_width : ℚ
  motor_radius : ℚ
  has_stand : Bool
  tilt_angle : ℚ
  acceleration : ℚ
  deceleration : ℚ
  target_speed : ℚ
  current_speed : ℚ

/-- Python's float modulo `x % y`: `x - ⌊x / y⌋ * y` (the result carries the
sign of the divisor).  Used for `self.angle %= 2 * np.pi` (src line 332). -/
def pymod (x y : ℚ) : ℚ := x - ⌊x / y⌋ * y

/-- The `ceiling` entry of the `configs` table (src lines 57-64). -/
def ceiling_config : FanConfig :=
  { blade_count := 3, blade_length := 1.5, blade_width := 0.3,
    motor_radius := 0.2, has_stand := false, tilt_angle := 0 }

/-- The `table` entry of the `configs` table (src lines 65-72). -/
def table_config : FanConfig :=
  { blade_count := 4, blade_length := 0.8, blade_width := 0.2,
    motor_radius := 0.15, has_stand := true, tilt_angle := 15 }

/-- The `tower` entry of the `configs` table (src lines 73-80). -/
def tower_config : FanConfig :=
  { blade_count := 20, blade_length := 0.3, blade_width := 0.1,
    motor_radius := 0.1, has_stand := true, tilt_angle := 0 }

/-- The `industrial` entry of the `configs` table (src lines 81-88). -/
def industrial_config : FanConfig :=
  { blade_count := 5, blade_length := 2.0, blade_width := 0.4,
    motor_radius := 0.3, has_stand := true, tilt_angle := 0 }

/-- The `desk` entry of the `configs` table (src lines 89-96). -/
def desk_config : FanConfig :=
  { blade_count := 3, blade_length := 0.5, blade_width := 0.15,
    motor_radius := 0.1, has_stand := true, tilt_angle := 20 }

/-- The `configs` dictionary of `configure_fan` as a lookup by name
(src lines 56-97): `some` of the archetype's record for the five known
names, `none` otherwise. -/
def configs (name : String) : Option FanConfig :=
  if name = "ceiling" then some ceiling_config
  else if name = "table" then some table_config
  else if name = "tower" then some tower_config
  else if name = "industrial" then some industrial_config
  else if name = "desk" then some desk_config
  else none

/-- `Fan3D.configure_fan` (src lines 54-105): look `self.fan_type` up in the
table, falling back to the `ceiling` entry (`configs.get(self.fan_type,
configs['ceiling'])`, src line 99), and overwrite the six configuration
fields of the instance. -/
def configure_fan (s : FanState) : FanState :=
  let config := (configs s.fan_type).getD ceiling_config
  { s with blade_count := config.blade_count, blade_length := config.blade_length,
           blade_width := config.blade_width, motor_radius := config.motor_radius,
           has_stand := config.has_stand, tilt_angle := config.tilt_angle }

/-- `Fan3D.update_physics` (src lines 313-344).  Current speed eases toward
`target_speed` (accelerating by `self.acceleration`, decelerating by
`self.deceleration`, clamped at the target by `min`/`max`) when on, and
decays toward 0 when off; the rotation angle advances by
`current_speed * dt * π` (here: the π-coefficient advances by
`current_speed * dt`) and is wrapped modulo 2π (here: modulo 2); if
oscillation is on, the oscillation angle advances by `direction * 0.5`
and on reaching `±oscillate_range/2` the direction flips and the angle is
clamped by `np.clip` (which is `min hi (max lo x)`). -/
def update_physics (s : FanState) (dt : ℚ) : FanState :=
  let cs : ℚ :=
    if s.is_on then
      if s.current_speed < s.target_speed then
        min s.target_speed (s.current_speed + s.acceleration)
      else if s.target_speed < s.current_speed then
        max s.target_speed (s.current_speed - s.deceleration)
      else s.current_speed
    else
      max 0 (s.current_speed - s.deceleration)
  let a : ℚ := pymod (s.angle + cs * dt) 2
  let oa1 : ℚ := s.oscillate_angle + s.oscillate_direction * 0.5
  let oa : ℚ :=
    if s.oscillate then
      if s.oscillate_range / 2 ≤ |oa1| then
        min (s.oscillate_range / 2) (max (-(s.oscillate_range / 2)) oa1)
      else oa1
    else s.oscillate_angle
  let od : ℚ :=
    if s.oscillate then
      if s.oscillate_range / 2 ≤ |oa1| then -s.oscillate_direction
      else s.oscillate_direction
    else s.oscillate_direction
  { s with current_speed := cs, angle := a, oscillate_angle := oa,
           oscillate_direction := od }

/-- `n` successive calls of `update_physics` with a fixed time step `dt`
(the simulator calls it once per animation frame, src line 538). -/
def phys_iter (dt : ℚ) (n : ℕ) (s : FanState) : FanState :=
  (fun u => update_physics u dt)^[n] s

theorem phys_iter_succ (dt : ℚ) (n : ℕ) (s : FanState) :
    phys_iter dt (n + 1) s = update_physics (phys_iter dt n s) dt :=
  Function.iterate_succ_apply' _ n s

theorem update_physics_is_on (s : FanState) (dt : ℚ) :
    (update_physics s dt).is_on = s.is_on := rfl

theorem update_physics_target (s : FanState) (dt : ℚ) :
    (update_physics s dt).target_speed = s.target_speed := rfl

theorem update_physics_acceleration (s : FanState) (dt : ℚ) :
    (update_physics s dt).acceleration = s.acceleration := rfl

theorem update_physics_deceleration (s : FanState) (dt : ℚ) :
    (update_physics s dt).deceleration = s.deceleration := rfl

theorem update_physics_oscillate (s : FanState) (dt : ℚ) :
    (update_physics s dt).oscillate = s.oscillate := rfl

theorem update_physics_range (s : FanState) (dt : ℚ) :
    (update_physics s dt).oscillate_range = s.oscillate_range := rfl

theorem phys_iter_is_on (dt : ℚ) (n : ℕ) (s : FanState) :
    (phys_iter dt n s).is_on = s.is_on := by
  induction n with
  | zero => rfl
  | succ n ih => rw [phys_iter_succ, update_physics_is_on, ih]

theorem phys_iter_target (dt : ℚ) (n : ℕ) (s : FanState) :
    (phys_iter dt n s).target_speed = s.target_speed := by
  induction n with
  | zero => rfl
  | succ n ih => rw [phys_iter_succ, update_physics_target, ih]

theorem phys_iter_acceleration (dt : ℚ) (n : ℕ) (s : FanState) :
    (phys_iter dt n s).acceleration = s.acceleration := by
  induction n with
  | zero => rfl
  | succ n ih => rw [phys_iter_succ, update_physics_acceleration, ih]

theorem phys_iter_deceleration (dt : ℚ) (n : ℕ) (s : FanState) :
    (phys_iter dt n s).deceleration = s.deceleration := by
  induction n with
  | zero => rfl
  | succ n ih => rw [phys_iter_succ, update_physics_deceleration, ih]

theorem phys_iter_oscillate (dt : ℚ) (n : ℕ) (s : FanState) :
    (phys_iter dt n s).oscillate = s.oscillate := by
  induction n with
  | zero => rfl
  | succ n ih => rw [phys_iter_succ, update_physics_oscillate, ih]

theorem phys_iter_range (dt : ℚ) (n : ℕ) (s : FanState) :
    (phys_iter dt n s).oscillate_range = s.oscillate_range := by
  induction n with
  | zero => rfl
  | succ n ih => rw [phys_iter_succ, update_physics_range, ih]

theorem update_physics_speed_on (s : FanState) (dt : ℚ) (h : s.is_on = true) :
    (update_physics s dt).current_speed =
      if s.current_speed < s.target_speed then
        min s.target_speed (s.current_speed + s.acceleration)
      else if s.target_speed < s.current_speed then
        max s.target_speed (s.current_speed - s.deceleration)
      else s.current_speed := by
  simp [update_physics, h]

theorem update_physics_speed_off (s : FanState) (dt : ℚ) (h : s.is_on = false) :
    (update_physics s dt).current_speed = max 0 (s.current_speed - s.deceleration) := by
  simp [update_physics, h]

/-- Closed form of the speed while accelerating: starting at or below the
target with the fan on, after `n` frames the speed is the start plus `n`
acceleration increments, clamped at the target. -/
theorem speed_iter_below (s : FanState) (dt : ℚ) (hOn : s.is_on = true)
    (hAcc : s.acceleration = 0.1) (hle : s.current_speed ≤ s.target_speed) (n : ℕ) :
    (phys_iter dt n s).current_speed
      = min s.target_speed (s.current_speed + n * 0.1) := by
  induction n with
  | zero => simp [phys_iter, min_eq_right hle]
  | succ n ih =>
    rw [phys_iter_succ,
      update_physics_speed_on _ _ (by rw [phys_iter_is_on, hOn]),
      phys_iter_target, phys_iter_acceleration, phys_iter_deceleration, hAcc, ih]
    rcases le_or_lt s.target_speed (s.current_speed + n * 0.1) with h1 | h1
    · have h2 : s.target_speed ≤ s.current_speed + (n + 1 : ℕ) * 0.1 := by
        push_cast
        nlinarith
      rw [min_eq_left h1, min_eq_left h2]
      simp
    · have hm : min s.target_speed (s.current_speed + n * 0.1)
          = s.current_speed + n * 0.1 := min_eq_right h1.le
      rw [hm, if_pos h1]
      push_cast
      ring_nf

theorem speed_iter_above (s : FanState) (dt : ℚ) (hOn : s.is_on = true)
    (hDec : s.deceleration = 0.05) (hle : s.target_speed ≤ s.current_speed) (n : ℕ) :
    (phys_iter dt n s).current_speed
      = max s.target_speed (s.current_speed - n * 0.05) := by
  induction n with
  | zero => simp [phys_iter, max_eq_right hle]
  | succ n ih =>
    rw [phys_iter_succ,
      update_physics_speed_on _ _ (by rw [phys_iter_is_on, hOn]),
      phys_iter_target, phys_iter_acceleration, phys_iter_deceleration, hDec, ih]
    rcases le_or_lt (s.current_speed - n * 0.05) s.target_speed with h1 | h1
    · have h2 : s.current_speed - (n + 1 : ℕ) * 0.05 ≤ s.target_speed := by
        push_cast
        nlinarith
      rw [max_eq_left h1, max_eq_left h2]
      simp
    · have hm : max s.target_speed (s.current_speed - n * 0.05)
          = s.current_speed - n * 0.05 := max_eq_right h1.le
      rw [hm, if_neg (by simp; nlinarith), if_pos h1]
      push_cast
      ring_nf

/-- Closed form of the speed with the fan off: after `n` frames the speed is
the start minus `n` deceleration decrements, floored at 0 (src line 328). -/
theorem speed_iter_off (s : FanState) (dt : ℚ) (hOff : s.is_on = false)
    (hDec : s.deceleration = 0.05) (h0 : 0 ≤ s.current_speed) (n : ℕ) :
    (phys_iter dt n s).current_speed = max 0 (s.current_speed - n * 0.05) := by
  induction n with
  | zero => simp [phys_iter, max_eq_right h0]
  | succ n ih =>
    rw [phys_iter_succ,
      update_physics_speed_off _ _ (by rw [phys_iter_is_on, hOff]),
      phys_iter_deceleration, hDec, ih]
    rcases le_or_lt (s.current_speed - n * 0.05) 0 with h1 | h1
    · have h2 : s.current_speed - (n + 1 : ℕ) * 0.05 ≤ 0 := by
        push_cast
        nlinarith
      rw [max_eq_left h1, max_eq_left h2]
      norm_num
    · have hm : max 0 (s.current_speed - n * 0.05)
          = s.current_speed - n * 0.05 := max_eq_right h1.le
      rw [hm]
      push_cast
      ring_nf

/-- C1: with the fan on and the acceleration constants of `__init__`
(src lines 44-45), the target speed is fixed across frames, each frame below
the target adds 0.1 clamped at the target, each frame above subtracts 0.05
clamped at the target, a run started at or below (resp. at or above) the
target is monotonically non-decreasing (resp. non-increasing) and never
passes the target, and after finitely many frames the speed equals the
target and stays there. -/
theorem update_physics_speed_converges (s : FanState) (dt : ℚ)
    (hOn : s.is_on = true) (hAcc : s.acceleration = 0.1) (hDec : s.deceleration = 0.05) :
    (∀ n : ℕ, (phys_iter dt n s).target_speed = s.target_speed) ∧
    (∀ n : ℕ, (phys_iter dt n s).current_speed < s.target_speed →
      (phys_iter dt (n + 1) s).current_speed
        = min s.target_speed ((phys_iter dt n s).current_speed + 0.1)) ∧
    (∀ n : ℕ, s.target_speed < (phys_iter dt n s).current_speed →
      (phys_iter dt (n + 1) s).current_speed
        = max s.target_speed ((phys_iter dt n s).current_speed - 0.05)) ∧
    (s.current_speed ≤ s.target_speed → ∀ n : ℕ,
      (phys_iter dt n s).current_speed ≤ (phys_iter dt (n + 1) s).current_speed ∧
      (phys_iter dt n s).current_speed ≤ s.target_speed) ∧
    (s.target_speed ≤ s.current_speed → ∀ n : ℕ,
      (phys_iter dt (n + 1) s).current_speed ≤ (phys_iter dt n s).current_speed ∧
      s.target_speed ≤ (phys_iter dt n s).current_speed) ∧
    ∃ N : ℕ, ∀ m : ℕ, N ≤ m → (phys_iter dt m s).current_speed = s.target_speed := by
  refine ⟨fun n => phys_iter_target dt n s, fun n hlt => ?_, fun n hgt => ?_,
    fun hc n => ?_, fun hc n => ?_, ?_⟩
  · rw [phys_iter_succ, update_physics_speed_on _ _ (by rw [phys_iter_is_on, hOn]),
      phys_iter_target, phys_iter_acceleration, hAcc, if_pos hlt]
  · rw [phys_iter_succ, update_physics_speed_on _ _ (by rw [phys_iter_is_on, hOn]),
      phys_iter_target, phys_iter_deceleration, hDec,
      if_neg (not_lt.mpr hgt.le), if_pos hgt]
  · rw [speed_iter_below s dt hOn hAcc hc n, speed_iter_below s dt hOn hAcc hc (n + 1)]
    constructor
    · exact min_le_min le_rfl (by push_cast; nlinarith)
    · exact min_le_left _ _
  · rw [speed_iter_above s dt hOn hDec hc n, speed_iter_above s dt hOn hDec hc (n + 1)]
    constructor
    · exact max_le_max le_rfl (by push_cast; nlinarith)
    · exact le_max_left _ _
  · rcases le_total s.current_speed s.target_speed with hc | hc
    · refine ⟨(⌈(s.target_speed - s.current_speed) * 10⌉).toNat, fun m hm => ?_⟩
      rw [speed_iter_below s dt hOn hAcc hc m]
      apply min_eq_left
      have h1 : (s.target_speed - s.current_speed) * 10
          ≤ (⌈(s.target_speed - s.current_speed) * 10⌉ : ℚ) := Int.le_ceil _
      have h2 : ((⌈(s.target_speed - s.current_speed) * 10⌉ : ℚ))
          ≤ (((⌈(s.target_speed - s.current_speed) * 10⌉).toNat : ℕ) : ℚ) := by
        exact_mod_cast Int.self_le_toNat _
      have h3 : ((((⌈(s.target_speed - s.current_speed) * 10⌉).toNat : ℕ)) : ℚ)
          ≤ (m : ℚ) := by exact_mod_cast hm
      nlinarith
    · refine ⟨(⌈(s.current_speed - s.target_speed) * 20⌉).toNat, fun m hm => ?_⟩
      rw [speed_iter_above s dt hOn hDec hc m]
      apply max_eq_left
      have h1 : (s.current_speed - s.target_speed) * 20
          ≤ (⌈(s.current_speed - s.target_speed) * 20⌉ : ℚ) := Int.le_ceil _
      have h2 : ((⌈(s.current_speed - s.target_speed) * 20⌉ : ℚ))
          ≤ (((⌈(s.current_speed - s.target_speed) * 20⌉).toNat : ℕ) : ℚ) := by
        exact_mod_cast Int.self_le_toNat _
      have h3 : ((((⌈(s.current_speed - s.target_speed) * 20⌉).toNat : ℕ)) : ℚ)
          ≤ (m : ℚ) := by exact_mod_cast hm
      nlinarith

/-- The state of a freshly constructed ceiling fan (`Fan3D.__init__`,
src lines 27-52): speed 2.0 targeted, on, not oscillating, realistic
lighting, ceiling geometry, acceleration 0.1, deceleration 0.05. -/
def sample_state : FanState where
  fan_type := "ceiling"
  angle := 0
  max_speed := 10.0
  is_on := true
  oscillate := false
  oscillate_angle := 0
  oscillate_direction := 1
  oscillate_range := 60
  blade_count := 3
  lighting_mode := LightingMode.realistic
  blade_length := 1.5
  blade_width := 0.3
  motor_radius := 0.2
  has_stand := false
  tilt_angle := 0
  acceleration := 0.1
  deceleration := 0.05
  target_speed := 2.0
  current_speed := 0

/-- Witness for C1 at the freshly constructed ceiling fan. -/
theorem update_physics_speed_converges_witness :
    (phys_iter 0.016 3 sample_state).target_speed = sample_state.target_speed :=
  (update_physics_speed_converges sample_state 0.016 rfl rfl rfl).1 3

/-- C5: with the fan off (src line 328) the speed decreases by the
deceleration 0.05 with a floor of 0 each frame, is non-increasing, stays
non-negative, and reaches exactly 0 after finitely many frames and stays
there, whatever the target speed is. -/
theorem update_physics_speed_decays_when_off (s : FanState) (dt : ℚ)
    (hOff : s.is_on = false) (hDec : s.deceleration = 0.05)
    (h0 : 0 ≤ s.current_speed) :
    (∀ n : ℕ, (phys_iter dt (n + 1) s).current_speed
        = max 0 ((phys_iter dt n s).current_speed - 0.05)) ∧
    (∀ n : ℕ, (phys_iter dt (n + 1) s).current_speed
        ≤ (phys_iter dt n s).current_speed) ∧
    (∀ n : ℕ, 0 ≤ (phys_iter dt n s).current_speed) ∧
    ∃ N : ℕ, ∀ m : ℕ, N ≤ m → (phys_iter dt m s).current_speed = 0 := by
  have hstep : ∀ n : ℕ, (phys_iter dt (n + 1) s).current_speed
      = max 0 ((phys_iter dt n s).current_speed - 0.05) := by
    intro n
    rw [phys_iter_succ, update_physics_speed_off _ _ (by rw [phys_iter_is_on, hOff]),
      phys_iter_deceleration, hDec]
  refine ⟨hstep, fun n => ?_, fun n => ?_, ?_⟩
  · rw [speed_iter_off s dt hOff hDec h0 n, speed_iter_off s dt hOff hDec h0 (n + 1)]
    exact max_le_max le_rfl (by push_cast; nlinarith)
  · rw [speed_iter_off s dt hOff hDec h0 n]
    exact le_max_left _ _
  · refine ⟨(⌈s.current_speed * 20⌉).toNat, fun m hm => ?_⟩
    rw [speed_iter_off s dt hOff hDec h0 m]
    apply max_eq_left
    have h1 : s.current_speed * 20 ≤ (⌈s.current_speed * 20⌉ : ℚ) := Int.le_ceil _
    have h2 : ((⌈s.current_speed * 20⌉ : ℚ))
        ≤ (((⌈s.current_speed * 20⌉).toNat : ℕ) : ℚ) := by
      exact_mod_cast Int.self_le_toNat _
    have h3 : ((((⌈s.current_speed * 20⌉).toNat : ℕ)) : ℚ) ≤ (m : ℚ) := by
      exact_mod_cast hm
    nlinarith

/-- State used as the concrete input of the C5 witness: a freshly built
ceiling fan that has been switched off at speed 2. -/
def off_state : FanState :=
  { sample_state with is_on := false, target_speed := 0, current_speed := 2 }

/-- Witness for C5 at a switched-off fan running at speed 2. -/
theorem update_physics_speed_decays_when_off_witness :
    (phys_iter 0.016 1 off_state).current_speed
      ≤ (phys_iter 0.016 0 off_state).current_speed :=
  (update_physics_speed_decays_when_off off_state 0.016 rfl rfl
    (by norm_num [off_state, sample_state])).2.1 0

/-- C10: `update_physics` writes only `current_speed`, `angle`,
`oscillate_angle` and `oscillate_direction` (src lines 313-344); every other
attribute is returned unchanged, and when oscillation is off the two
oscillation fields are unchanged as well. -/
theorem update_physics_frame (s : FanState) (dt : ℚ) :
    (update_physics s dt).target_speed = s.target_speed ∧
    (update_physics s dt).max_speed = s.max_speed ∧
    (update_physics s dt).is_on = s.is_on ∧
    (update_physics s dt).oscillate = s.oscillate ∧
    (update_physics s dt).lighting_mode = s.lighting_mode ∧
    (update_physics s dt).blade_count = s.blade_count ∧
    (update_physics s dt).blade_length = s.blade_length ∧
    (update_physics s dt).blade_width = s.blade_width ∧
    (update_physics s dt).motor_radius = s.motor_radius ∧
    (update_physics s dt).has_stand = s.has_stand ∧
    (update_physics s dt).tilt_angle = s.tilt_angle ∧
    (update_physics s dt).fan_type = s.fan_type ∧
    (update_physics s dt).oscillate_range = s.oscillate_range ∧
    (update_physics s dt).acceleration = s.acceleration ∧
    (update_physics s dt).deceleration = s.deceleration ∧
    (s.oscillate = false →
      (update_physics s dt).oscillate_angle = s.oscillate_angle ∧
      (update_physics s dt).oscillate_direction = s.oscillate_direction) := by
  refine ⟨rfl, rfl, rfl, rfl, rfl, rfl, rfl, rfl, rfl, rfl, rfl, rfl, rfl, rfl, rfl,
    fun h => ?_⟩
  constructor
  · show (if s.oscillate then _ else s.oscillate_angle) = s.oscillate_angle
    rw [h]
    rfl
  · show (if s.oscillate then _ else s.oscillate_direction) = s.oscillate_direction
    rw [h]
    rfl

/-- Witness for C10 at the freshly constructed ceiling fan (oscillation off). -/
theorem update_physics_frame_witness :
    (update_physics sample_state 0.016).target_speed = sample_state.target_speed ∧
    (update_physics sample_state 0.016).oscillate_angle = sample_state.oscillate_angle :=
  ⟨(update_physics_frame sample_state 0.016).1,
    ((update_physics_frame sample_state 0.016).2.2.2.2.2.2.2.2.2.2.2.2.2.2.2 rfl).1⟩

/-- Bounds of the Python float modulo with a positive divisor: the result
lies in `[0, y)`. -/
theorem pymod_bounds (x y : ℚ) (hy : 0 < y) : 0 ≤ pymod x y ∧ pymod x y < y := by
  have h1 : pymod x y = (x / y - ⌊x / y⌋) * y := by
    unfold pymod
    rw [sub_mul, div_mul_cancel₀ _ (ne_of_gt hy)]
  have hf0 : 0 ≤ x / y - ⌊x / y⌋ := by
    have := Int.fract_nonneg (x / y)
    rwa [Int.fract] at this
  have hf1 : x / y - ⌊x / y⌋ < 1 := by
    have := Int.fract_lt_one (x / y)
    rwa [Int.fract] at this
  constructor
  · rw [h1]
    exact mul_nonneg hf0 hy.le
  · rw [h1]
    nlinarith

/-- After any update, the stored π-coefficient of the rotation angle lies
in `[0, 2)`: the wrap `self.angle %= 2*np.pi` (src line 332) in exact form. -/
theorem update_physics_angle_bounds (u : FanState) (dt : ℚ) :
    0 ≤ (update_physics u dt).angle ∧ (update_physics u dt).angle < 2 := by
  have h : (update_physics u dt).angle
      = pymod (u.angle + (update_physics u dt).current_speed * dt) 2 := rfl
  rw [h]
  exact pymod_bounds _ 2 (by norm_num)

/-- C2: after one or more `update_physics` calls the rotation angle — the
code's `self.angle`, recovered here as the stored coefficient times π — lies
in the interval `[0, 2π)`. -/
theorem update_physics_angle_wrapped (s : FanState) (dt : ℚ) (_hdt : 0 ≤ dt)
    (_hcs : 0 ≤ s.current_speed) (n : ℕ) (hn : 1 ≤ n) :
    0 ≤ ((phys_iter dt n s).angle : ℝ) * Real.pi ∧
    ((phys_iter dt n s).angle : ℝ) * Real.pi < 2 * Real.pi := by
  obtain ⟨m, rfl⟩ : ∃ m, n = m + 1 := ⟨n - 1, by omega⟩
  rw [phys_iter_succ]
  obtain ⟨h1, h2⟩ := update_physics_angle_bounds (phys_iter dt m s) dt
  constructor
  · have h1' : (0 : ℝ) ≤ ((update_physics (phys_iter dt m s) dt).angle : ℝ) := by
      exact_mod_cast h1
    exact mul_nonneg h1' Real.pi_pos.le
  · have h2' : ((update_physics (phys_iter dt m s) dt).angle : ℝ) < 2 := by
      exact_mod_cast h2
    exact mul_lt_mul_of_pos_right h2' Real.pi_pos

/-- Witness for C2 at the freshly constructed ceiling fan after one frame. -/
theorem update_physics_angle_wrapped_witness :
    0 ≤ ((phys_iter 0.016 1 sample_state).angle : ℝ) * Real.pi ∧
    ((phys_iter 0.016 1 sample_state).angle : ℝ) * Real.pi < 2 * Real.pi :=
  update_physics_angle_wrapped sample_state 0.016 (by norm_num) (le_refl 0) 1
    (le_refl 1)

theorem update_physics_osc_angle (u : FanState) (dt : ℚ) (h : u.oscillate = true) :
    (update_physics u dt).oscillate_angle =
      if u.oscillate_range / 2 ≤ |u.oscillate_angle + u.oscillate_direction * 0.5| then
        min (u.oscillate_range / 2)
          (max (-(u.oscillate_range / 2)) (u.oscillate_angle + u.oscillate_direction * 0.5))
      else u.oscillate_angle + u.oscillate_direction * 0.5 := by
  have e : (update_physics u dt).oscillate_angle =
      if u.oscillate then
        if u.oscillate_range / 2 ≤ |u.oscillate_angle + u.oscillate_direction * 0.5| then
          min (u.oscillate_range / 2)
            (max (-(u.oscillate_range / 2)) (u.oscillate_angle + u.oscillate_direction * 0.5))
        else u.oscillate_angle + u.oscillate_direction * 0.5
      else u.oscillate_angle := rfl
  rw [e, h]
  exact if_pos rfl

theorem update_physics_osc_dir (u : FanState) (dt : ℚ) (h : u.oscillate = true) :
    (update_physics u dt).oscillate_direction =
      if u.oscillate_range / 2 ≤ |u.oscillate_angle + u.oscillate_direction * 0.5| then
        -u.oscillate_direction
      else u.oscillate_direction := by
  have e : (update_physics u dt).oscillate_direction =
      if u.oscillate then
        if u.oscillate_range / 2 ≤ |u.oscillate_angle + u.oscillate_direction * 0.5| then
          -u.oscillate_direction
        else u.oscillate_direction
      else u.oscillate_direction := rfl
  rw [e, h]
  exact if_pos rfl

/-- The clip `np.clip(x, -r/2, r/2)` never exceeds `r/2` in magnitude. -/
theorem clip_abs_le (r x : ℚ) (hr : 0 ≤ r) : |min (r / 2) (max (-(r / 2)) x)| ≤ r / 2 := by
  rw [abs_le]
  exact ⟨le_min (by linarith) (le_max_left _ _), min_le_left _ _⟩

/-- When `|x|` has reached `r/2`, the clip lands exactly on the boundary. -/
theorem clip_abs_eq (r x : ℚ) (hr : 0 ≤ r) (hx : r / 2 ≤ |x|) :
    |min (r / 2) (max (-(r / 2)) x)| = r / 2 := by
  rcases le_abs.mp hx with h | h
  · rw [max_eq_right (by linarith : -(r / 2) ≤ x), min_eq_left h,
      abs_of_nonneg (by linarith : (0:ℚ) ≤ r / 2)]
  · rw [max_eq_left (by linarith : x ≤ -(r / 2)),
      min_eq_right (by linarith : -(r / 2) ≤ r / 2), abs_neg,
      abs_of_nonneg (by linarith : (0:ℚ) ≤ r / 2)]

/-- Inside the open band the clip is the identity. -/
theorem clip_eq_self (r x : ℚ) (hx : |x| < r / 2) :
    min (r / 2) (max (-(r / 2)) x) = x := by
  rcases abs_lt.mp hx with ⟨h1, h2⟩
  rw [max_eq_right h1.le, min_eq_right h2.le]

/-- Invariant of the oscillation loop: the oscillation angle never exceeds
half the range in magnitude and the direction stays in `{1, -1}`. -/
theorem osc_iter_invariant (s : FanState) (dt : ℚ) (hosc : s.oscillate = true)
    (hdir : s.oscillate_direction = 1 ∨ s.oscillate_direction = -1)
    (hang : |s.oscillate_angle| ≤ s.oscillate_range / 2) (n : ℕ) :
    |(phys_iter dt n s).oscillate_angle| ≤ s.oscillate_range / 2 ∧
    ((phys_iter dt n s).oscillate_direction = 1 ∨
      (phys_iter dt n s).oscillate_direction = -1) := by
  have hr : 0 ≤ s.oscillate_range := by
    have := abs_nonneg s.oscillate_angle
    linarith
  induction n with
  | zero => exact ⟨hang, hdir⟩
  | succ n ih =>
    obtain ⟨ih1, ih2⟩ := ih
    have ho : (phys_iter dt n s).oscillate = true := by rw [phys_iter_oscillate, hosc]
    have hrange := phys_iter_range dt n s
    rw [phys_iter_succ]
    constructor
    · rw [update_physics_osc_angle _ dt ho, hrange]
      by_cases hc : s.oscillate_range / 2
          ≤ |(phys_iter dt n s).oscillate_angle
              + (phys_iter dt n s).oscillate_direction * 0.5|
      · rw [if_pos hc]
        exact clip_abs_le _ _ hr
      · rw [if_neg hc]
        exact (not_le.mp hc).le
    · rw [update_physics_osc_dir _ dt ho, hrange]
      by_cases hc : s.oscillate_range / 2
          ≤ |(phys_iter dt n s).oscillate_angle
              + (phys_iter dt n s).oscillate_direction * 0.5|
      · rw [if_pos hc]
        rcases ih2 with h | h
        · right
          rw [h]
        · left
          rw [h]
          norm_num
      · rw [if_neg hc]
        exact ih2

/-- C3: with oscillation on, a direction in `{1, -1}` and a start inside
the band, across every frame the oscillation angle advances by
`direction * 0.5` degrees and is clipped into
`[-oscillate_range/2, oscillate_range/2]`, its magnitude never exceeds
`oscillate_range/2`, the direction stays in `{1, -1}`, and the direction
flips exactly on the frames whose advanced angle reaches the boundary — on
such a frame the angle is clamped exactly to the boundary, on the others it
is the plain advance (src lines 334-344). -/
theorem update_physics_oscillation_bounded (s : FanState) (dt : ℚ)
    (hosc : s.oscillate = true)
    (hdir : s.oscillate_direction = 1 ∨ s.oscillate_direction = -1)
    (hang : |s.oscillate_angle| ≤ s.oscillate_range / 2) :
    ∀ n : ℕ,
      |(phys_iter dt n s).oscillate_angle| ≤ s.oscillate_range / 2 ∧
      ((phys_iter dt n s).oscillate_direction = 1 ∨
        (phys_iter dt n s).oscillate_direction = -1) ∧
      (phys_iter dt (n + 1) s).oscillate_angle
        = min (s.oscillate_range / 2) (max (-(s.oscillate_range / 2))
            ((phys_iter dt n s).oscillate_angle
              + (phys_iter dt n s).oscillate_direction * 0.5)) ∧
      (s.oscillate_range / 2
          ≤ |(phys_iter dt n s).oscillate_angle
              + (phys_iter dt n s).oscillate_direction * 0.5| →
        (phys_iter dt (n + 1) s).oscillate_direction
            = -(phys_iter dt n s).oscillate_direction ∧
        |(phys_iter dt (n + 1) s).oscillate_angle| = s.oscillate_range / 2) ∧
      (|(phys_iter dt n s).oscillate_angle
          + (phys_iter dt n s).oscillate_direction * 0.5| < s.oscillate_range / 2 →
        (phys_iter dt (n + 1) s).oscillate_direction
            = (phys_iter dt n s).oscillate_direction ∧
        (phys_iter dt (n + 1) s).oscillate_angle
          = (phys_iter dt n s).oscillate_angle
            + (phys_iter dt n s).oscillate_direction * 0.5) := by
  intro n
  have hr : 0 ≤ s.oscillate_range := by
    have := abs_nonneg s.oscillate_angle
    linarith
  obtain ⟨inv1, inv2⟩ := osc_iter_invariant s dt hosc hdir hang n
  have ho : (phys_iter dt n s).oscillate = true := by rw [phys_iter_oscillate, hosc]
  have hrange := phys_iter_range dt n s
  refine ⟨inv1, inv2, ?_, fun hc => ⟨?_, ?_⟩, fun hc => ⟨?_, ?_⟩⟩
  · rw [phys_iter_succ, update_physics_osc_angle _ dt ho, hrange]
    by_cases hc : s.oscillate_range / 2
        ≤ |(phys_iter dt n s).oscillate_angle
            + (phys_iter dt n s).oscillate_direction * 0.5|
    · rw [if_pos hc]
    · rw [if_neg hc]
      exact (clip_eq_self _ _ (not_le.mp hc)).symm
  · rw [phys_iter_succ, update_physics_osc_dir _ dt ho, hrange, if_pos hc]
  · rw [phys_iter_succ, update_physics_osc_angle _ dt ho, hrange, if_pos hc]
    exact clip_abs_eq _ _ hr hc
  · rw [phys_iter_succ, update_physics_osc_dir _ dt ho, hrange,
      if_neg (not_le.mpr hc)]
  · rw [phys_iter_succ, update_physics_osc_angle _ dt ho, hrange,
      if_neg (not_le.mpr hc)]

/-- State used as the concrete input of the C3 witness: the fresh ceiling
fan with oscillation toggled on. -/
def osc_state : FanState := { sample_state with oscillate := true }

/-- Witness for C3 at the oscillating ceiling fan after two frames. -/
theorem update_physics_oscillation_bounded_witness :
    |(phys_iter 0.016 2 osc_state).oscillate_angle| ≤ osc_state.oscillate_range / 2 :=
  (update_physics_oscillation_bounded osc_state 0.016 rfl (Or.inl rfl)
    (by norm_num [osc_state, sample_state]) 2).1

/-- C8: configuring with a name outside the five known archetypes falls back
to the `ceiling` entry (`configs.get(self.fan_type, configs['ceiling'])`,
src line 99): every one of the six configuration fields comes out the same
as under an explicit `ceiling` selection, and the call is total. -/
theorem configure_fan_unknown_archetype (s : FanState) (name : String)
    (h : name ∉ ["ceiling", "table", "tower", "industrial", "desk"]) :
    (configure_fan { s with fan_type := name }).blade_count
        = (configure_fan { s with fan_type := "ceiling" }).blade_count ∧
    (configure_fan { s with fan_type := name }).blade_length
        = (configure_fan { s with fan_type := "ceiling" }).blade_length ∧
    (configure_fan { s with fan_type := name }).blade_width
        = (configure_fan { s with fan_type := "ceiling" }).blade_width ∧
    (configure_fan { s with fan_type := name }).motor_radius
        = (configure_fan { s with fan_type := "ceiling" }).motor_radius ∧
    (configure_fan { s with fan_type := name }).has_stand
        = (configure_fan { s with fan_type := "ceiling" }).has_stand ∧
    (configure_fan { s with fan_type := name }).tilt_angle
        = (configure_fan { s with fan_type := "ceiling" }).tilt_angle := by
  have h1 : ¬(name = "ceiling") := by simp at h; exact h.1
  have h2 : ¬(name = "table") := by simp at h; exact h.2.1
  have h3 : ¬(name = "tower") := by simp at h; exact h.2.2.1
  have h4 : ¬(name = "industrial") := by simp at h; exact h.2.2.2.1
  have h5 : ¬(name = "desk") := by simp at h; exact h.2.2.2.2
  have hn : configs name = none := by
    simp only [configs, if_neg h1, if_neg h2, if_neg h3, if_neg h4, if_neg h5]
  have hcfg : (configs name).getD ceiling_config = ceiling_config := by
    rw [hn]
    rfl
  refine ⟨?_, ?_, ?_, ?_, ?_, ?_⟩
  · show ((configs name).getD ceiling_config).blade_count
        = ((configs "ceiling").getD ceiling_config).blade_count
    rw [hcfg]
    rfl
  · show ((configs name).getD ceiling_config).blade_length
        = ((configs "ceiling").getD ceiling_config).blade_length
    rw [hcfg]
    rfl
  · show ((configs name).getD ceiling_config).blade_width
        = ((configs "ceiling").getD ceiling_config).blade_width
    rw [hcfg]
    rfl
  · show ((configs name).getD ceiling_config).motor_radius
        = ((configs "ceiling").getD ceiling_config).motor_radius
    rw [hcfg]
    rfl
  · show ((configs name).getD ceiling_config).has_stand
        = ((configs "ceiling").getD ceiling_config).has_stand
    rw [hcfg]
    rfl
  · show ((configs name).getD ceiling_config).tilt_angle
        = ((configs "ceiling").getD ceiling_config).tilt_angle
    rw [hcfg]
    rfl

/-- Witness for C8 at the unknown archetype name "box". -/
theorem configure_fan_unknown_archetype_witness :
    (configure_fan { sample_state with fan_type := "box" }).blade_count
      = (configure_fan { sample_state with fan_type := "ceiling" }).blade_count :=
  (configure_fan_unknown_archetype sample_state "box" (by decide)).1

/-- A 3D point, as the generators emit them. -/
abbrev Vec3 : Type := ℝ × ℝ × ℝ

/-- Top-rail profile point `i` of a blade (src lines 115-126): at parameter
`t = i/20`, radius `motor_radius + t*blade_length`, sinusoidal twist of peak
15°, tapered width, upper z-offset `sin(tπ)*0.1`.  The code's radian angle
`self.angle + angle_offset` is recovered from the stored π-coefficient. -/
noncomputable def blade_profile_top (s : FanState) (angle_offset : ℝ) (i : ℕ) : Vec3 :=
  let blade_angle : ℝ := (s.angle : ℝ) * Real.pi + angle_offset
  let t : ℝ := (i : ℝ) / 20
  let r : ℝ := (s.motor_radius : ℝ) + t * (s.blade_length : ℝ)
  let twist : ℝ := Real.sin (t * Real.pi) * 15 * Real.pi / 180
  let width : ℝ := (s.blade_width : ℝ) * (1 - t * 0.5) * Real.sin (t * Real.pi)
  (r * Real.cos (blade_angle + twist) - width * Real.sin (blade_angle + twist),
    r * Real.sin (blade_angle + twist) + width * Real.cos (blade_angle + twist),
    Real.sin (t * Real.pi) * 0.1)

/-- Bottom-rail profile point `i` of a blade (src lines 128-131): lateral
offset with the opposite sign and lower z-offset `-sin(tπ)*0.05`. -/
noncomputable def blade_profile_bot (s : FanState) (angle_offset : ℝ) (i : ℕ) : Vec3 :=
  let blade_angle : ℝ := (s.angle : ℝ) * Real.pi + angle_offset
  let t : ℝ := (i : ℝ) / 20
  let r : ℝ := (s.motor_radius : ℝ) + t * (s.blade_length : ℝ)
  let twist : ℝ := Real.sin (t * Real.pi) * 15 * Real.pi / 180
  let width : ℝ := (s.blade_width : ℝ) * (1 - t * 0.5) * Real.sin (t * Real.pi)
  (r * Real.cos (blade_angle + twist) + width * Real.sin (blade_angle + twist),
    r * Real.sin (blade_angle + twist) - width * Real.cos (blade_angle + twist),
    -(Real.sin (t * Real.pi)) * 0.05)

/-- `Fan3D.generate_blade` (src lines 107-149): 20 segments; segment `i`
contributes the four vertices top(i), top(i+1), bottom(i+1), bottom(i)
(src line 144) and one quad face over them (src line 147, with
`idx = 4*i`). -/
noncomputable def generate_blade (s : FanState) (angle_offset : ℝ) :
    List Vec3 × List (List ℕ) :=
  ((List.range 20).flatMap fun i =>
      [blade_profile_top s angle_offset i, blade_profile_top s angle_offset (i + 1),
        blade_profile_bot s angle_offset (i + 1), blade_profile_bot s angle_offset i],
    (List.range 20).map fun i => [4 * i, 4 * i + 1, 4 * i + 2, 4 * i + 3])

/-- Vertex of the motor housing at height level `i` and angular sample `j`
(src lines 159-166): `z = -0.2 + i*0.08`, radius
`motor_radius*(1 + 0.1*sin(i*π/5))`, angle `θ_j = j*(2π/31)` — the 32-point
`np.linspace(0, 2π, 32)` has step `2π/31`. -/
noncomputable def housing_vertex (s : FanState) (i j : ℕ) : Vec3 :=
  let z : ℝ := -0.2 + (i : ℝ) * 0.08
  let r : ℝ := (s.motor_radius : ℝ) * (1 + 0.1 * Real.sin ((i : ℝ) * Real.pi / 5))
  (r * Real.cos ((j : ℝ) * (2 * Real.pi / 31)),
    r * Real.sin ((j : ℝ) * (2 * Real.pi / 31)), z)

/-- `Fan3D.generate_motor_housing` (src lines 151-177): 6 height levels of
32 angular samples each, and quad faces `[idx, idx+1, idx+33, idx+32]` with
`idx = 32*i + j` stitching angular neighbor `j, j+1` to height neighbor
`i, i+1` (src lines 168-175; `n_theta = 32`). -/
noncomputable def generate_motor_housing (s : FanState) :
    List Vec3 × List (List ℕ) :=
  ((List.range 6).flatMap fun i => (List.range 32).map fun j => housing_vertex s i j,
    (List.range 5).flatMap fun i => (List.range 31).map fun j =>
      [32 * i + j, 32 * i + j + 1, 32 * i + j + 33, 32 * i + j + 32])

/-- Pole height of the stand: 2.5 for the tower archetype, 1.5 otherwise
(src line 189). -/
def pole_height (s : FanState) : ℚ := if s.fan_type = "tower" then 2.5 else 1.5

/-- Pole vertex of the stand at height level `i` (of the 20 points of
`np.linspace(-pole_height, -0.2, 20)`) and angular sample `j` (of the
16-point `np.linspace(0, 2π, 16)`, step `2π/15`); the radius bulges toward
mid-height (src lines 192-198). -/
noncomputable def stand_pole_vertex (s : FanState) (i j : ℕ) : Vec3 :=
  let H : ℝ := (pole_height s : ℝ)
  let z : ℝ := -H + (i : ℝ) * ((-0.2 - -H) / 19)
  let r : ℝ := 0.05 * (1 + 0.2 * (1 - |z + H / 2| / (H / 2)))
  (r * Real.cos ((j : ℝ) * (2 * Real.pi / 15)),
    r * Real.sin ((j : ℝ) * (2 * Real.pi / 15)), z)

/-- Outer base-disk vertex `j` of the stand (src lines 201-205): radius 0.3
at `z = -pole_height`. -/
noncomputable def stand_base_outer (s : FanState) (j : ℕ) : Vec3 :=
  (0.3 * Real.cos ((j : ℝ) * (2 * Real.pi / 15)),
    0.3 * Real.sin ((j : ℝ) * (2 * Real.pi / 15)), -(pole_height s : ℝ))

/-- Inner base-disk vertex `j` of the stand (src line 206): the outer point
scaled by 0.9 in x and y, raised by 0.05. -/
noncomputable def stand_base_inner (s : FanState) (j : ℕ) : Vec3 :=
  (0.3 * Real.cos ((j : ℝ) * (2 * Real.pi / 15)) * 0.9,
    0.3 * Real.sin ((j : ℝ) * (2 * Real.pi / 15)) * 0.9, -(pole_height s : ℝ) + 0.05)

/-- `Fan3D.generate_stand` (src lines 179-217): empty when the archetype has
no stand (src lines 184-185); otherwise 20×16 pole vertices followed by the
interleaved 16 outer/inner base-disk pairs, and quad faces
`[idx, idx+1, idx+17, idx+16]` with `idx = 16*i + j` over the pole only
(src lines 208-215; the base disks get no faces). -/
noncomputable def generate_stand (s : FanState) : List Vec3 × List (List ℕ) :=
  if s.has_stand = false then ([], [])
  else
    (((List.range 20).flatMap fun i => (List.range 16).map fun j =>
        stand_pole_vertex s i j)
      ++ ((List.range 16).flatMap fun j =>
        [stand_base_outer s j, stand_base_inner s j]),
      (List.range 19).flatMap fun i => (List.range 15).map fun j =>
        [16 * i + j, 16 * i + j + 1, 16 * i + j + 17, 16 * i + j + 16])

/-- Cage ring vertex at height `z`, ring `i` (of 8) and spoke `j` (of the
16-point `np.linspace(0, 2π, 16)`): radius `(blade_length + 0.2)*(i+1)/8`
(src lines 225-248). -/
noncomputable def cage_ring_vertex (s : FanState) (z : ℝ) (i j : ℕ) : Vec3 :=
  let r : ℝ := ((s.blade_length : ℝ) + 0.2) * ((i : ℝ) + 1) / 8
  (r * Real.cos ((j : ℝ) * (2 * Real.pi / 15)),
    r * Real.sin ((j : ℝ) * (2 * Real.pi / 15)), z)

/-- `Fan3D.generate_safety_cage` (src lines 219-260): a front ring grid at
`z = 0.05` and a rear copy at `z = -0.15` (8 rings × 16 spokes each), and
faces `[idx_front, idx_front+1, idx_back+1, idx_back]` with
`idx_front = 16*j + i`, `idx_back = 16*(8+j) + i` for spoke `i < 15` and
ring `j < 7` (src lines 250-258). -/
noncomputable def generate_safety_cage (s : FanState) :
    List Vec3 × List (List ℕ) :=
  (((List.range 8).flatMap fun i => (List.range 16).map fun j =>
      cage_ring_vertex s 0.05 i j)
    ++ ((List.range 8).flatMap fun i => (List.range 16).map fun j =>
      cage_ring_vertex s (-0.15) i j),
    (List.range 15).flatMap fun i => (List.range 7).map fun j =>
      [16 * j + i, 16 * j + i + 1, 16 * (8 + j) + i + 1, 16 * (8 + j) + i])

/-- Cross product of two 3-vectors, as `np.cross` computes it
(src line 282). -/
def cross3 (a b : Vec3) : Vec3 :=
  (a.2.1 * b.2.2 - a.2.2 * b.2.1, a.2.2 * b.1 - a.1 * b.2.2,
    a.1 * b.2.1 - a.2.1 * b.1)

/-- Euclidean norm of a 3-vector, as `np.linalg.norm` computes it
(src lines 269, 284-285). -/
noncomputable def norm3 (v : Vec3) : ℝ :=
  Real.sqrt (v.1 ^ 2 + v.2.1 ^ 2 + v.2.2 ^ 2)

/-- Division of a 3-vector by its norm (`v / np.linalg.norm(v)`). -/
noncomputable def normalize3 (v : Vec3) : Vec3 :=
  (v.1 / norm3 v, v.2.1 / norm3 v, v.2.2 / norm3 v)

/-- Dot product of two 3-vectors (`np.dot`, src lines 291-298). -/
def dot3 (a b : Vec3) : ℝ := a.1 * b.1 + a.2.1 * b.2.1 + a.2.2 * b.2.2

/-- The fixed light direction `normalize((0.5, 0.5, 1.0))`
(src lines 268-269). -/
noncomputable def light_dir : Vec3 := normalize3 (0.5, 0.5, 1.0)

/-- Scalar intensity of a face before clipping, by lighting mode
(src lines 290-299): realistic is ambient 0.3 + diffuse·0.7 + specular
`max(0, N·L)³·0.5`; flat is the constant 1.0; dramatic is
`0.2 + max(0, N·L)·0.8`. -/
noncomputable def face_intensity (mode : LightingMode) (normal : Vec3) : ℝ :=
  match mode with
  | LightingMode.realistic =>
      0.3 + max 0 (dot3 normal light_dir) * 0.7
        + max 0 (dot3 normal light_dir) ^ 3 * 0.5
  | LightingMode.flat => 1.0
  | LightingMode.dramatic => 0.2 + max 0 (dot3 normal light_dir) * 0.8

/-- `Fan3D.apply_lighting` (src lines 262-311): empty output for an empty
vertex or face list; otherwise one RGBA per face of at least 3 vertices
(faces shorter than 3 are skipped, src lines 272-273): the face normal is
the normalized cross product of the first two edges, falling back to
`(0, 0, 1)` when the cross product has zero norm (src lines 284-287); the
intensity is clipped to `[0, 1]` (`np.clip`, src line 301) and scales the
RGB channels, while alpha is passed through (src lines 303-308). -/
noncomputable def apply_lighting (s : FanState) (vertices : List Vec3)
    (faces : List (List ℕ)) (color : ℝ × ℝ × ℝ × ℝ) : List (ℝ × ℝ × ℝ × ℝ) :=
  if vertices.length = 0 ∨ faces.length = 0 then []
  else
    (faces.filter fun face => 3 ≤ face.length).map fun face =>
      let v0 := vertices.getD (face.getD 0 0) (0, 0, 0)
      let v1 := vertices.getD (face.getD 1 0) (0, 0, 0)
      let v2 := vertices.getD (face.getD 2 0) (0, 0, 0)
      let edge1 : Vec3 := (v1.1 - v0.1, v1.2.1 - v0.2.1, v1.2.2 - v0.2.2)
      let edge2 : Vec3 := (v2.1 - v0.1, v2.2.1 - v0.2.1, v2.2.2 - v0.2.2)
      let n0 : Vec3 := cross3 edge1 edge2
      let normal : Vec3 := if 0 < norm3 n0 then normalize3 n0 else (0, 0, 1)
      let intensity : ℝ := min 1 (max 0 (face_intensity s.lighting_mode normal))
      (color.1 * intensity, color.2.1 * intensity, color.2.2.1 * intensity,
        color.2.2.2)

/-- Length of a flat map over `List.range` whose blocks all have length `k`. -/
theorem length_flatMap_range {α : Type} (f : ℕ → List α) (k n : ℕ)
    (h : ∀ m, (f m).length = k) : ((List.range n).flatMap f).length = n * k := by
  induction n with
  | zero => simp
  | succ n ih =>
    rw [List.range_succ, List.flatMap_append, List.length_append, ih]
    simp [h]
    ring

/-- Entry `k*i + j` of a flat map over `List.range` with constant block
length `k` is entry `j` of block `i`. -/
theorem getD_flatMap_range {α : Type} (f : ℕ → List α) (k : ℕ) (d : α)
    (h : ∀ m, (f m).length = k) :
    ∀ n i j, i < n → j < k →
      ((List.range n).flatMap f).getD (k * i + j) d = (f i).getD j d := by
  intro n
  induction n with
  | zero =>
    intro i j hi _
    exact absurd hi (Nat.not_lt_zero i)
  | succ n ih =>
    intro i j hi hj
    rw [List.range_succ, List.flatMap_append]
    rcases Nat.lt_or_ge i n with h1 | h1
    · rw [List.getD_append]
      · exact ih i j h1 hj
      · rw [length_flatMap_range f k n h]
        have e1 : k * i + j < k * (i + 1) := by
          have e0 : k * (i + 1) = k * i + k := by ring
          omega
        have e2 : k * (i + 1) ≤ k * n := Nat.mul_le_mul_left k h1
        exact lt_of_lt_of_le e1 (le_trans e2 (le_of_eq (mul_comm k n)))
    · have hi' : i = n := by omega
      subst hi'
      rw [List.getD_append_right]
      · rw [length_flatMap_range f k i h, mul_comm i k, Nat.add_sub_cancel_left]
        simp only [List.flatMap_cons, List.flatMap_nil, List.append_nil]
      · rw [length_flatMap_range f k i h]
        exact le_trans (le_of_eq (mul_comm i k)) (Nat.le_add_right _ j)

/-- Entry `j` of a map over `List.range k`, for `j < k`. -/
theorem getD_map_range {α : Type} (g : ℕ → α) (k j : ℕ) (d : α) (hj : j < k) :
    ((List.range k).map g).getD j d = g j := by
  rw [List.getD_eq_getElem _ _ (by simpa using hj)]
  simp

theorem generate_blade_vertices_length (s : FanState) (o : ℝ) :
    (generate_blade s o).1.length = 80 := by
  have h : ((List.range 20).flatMap (fun i =>
      [blade_profile_top s o i, blade_profile_top s o (i + 1),
        blade_profile_bot s o (i + 1), blade_profile_bot s o i])).length = 20 * 4 :=
    length_flatMap_range _ 4 20 (fun m => rfl)
  exact h

theorem generate_blade_faces_length (s : FanState) (o : ℝ) :
    (generate_blade s o).2.length = 20 := by
  rw [show (generate_blade s o).2 = (List.range 20).map (fun i =>
      [4 * i, 4 * i + 1, 4 * i + 2, 4 * i + 3]) from rfl]
  simp

theorem generate_motor_housing_vertices_length (s : FanState) :
    (generate_motor_housing s).1.length = 192 := by
  have h : ((List.range 6).flatMap (fun i =>
      (List.range 32).map (fun j => housing_vertex s i j))).length = 6 * 32 :=
    length_flatMap_range _ 32 6 (fun m => by simp)
  exact h

theorem generate_motor_housing_faces_length (s : FanState) :
    (generate_motor_housing s).2.length = 155 := by
  have h : ((List.range 5).flatMap (fun i =>
      (List.range 31).map (fun j =>
        [32 * i + j, 32 * i + j + 1, 32 * i + j + 33, 32 * i + j + 32]))).length
      = 5 * 31 :=
    length_flatMap_range _ 31 5 (fun m => by simp)
  exact h

theorem generate_stand_vertices_length (s : FanState) (h : s.has_stand = true) :
    (generate_stand s).1.length = 352 := by
  have e : generate_stand s =
      (((List.range 20).flatMap fun i => (List.range 16).map fun j =>
          stand_pole_vertex s i j)
        ++ ((List.range 16).flatMap fun j =>
          [stand_base_outer s j, stand_base_inner s j]),
        (List.range 19).flatMap fun i => (List.range 15).map fun j =>
          [16 * i + j, 16 * i + j + 1, 16 * i + j + 17, 16 * i + j + 16]) := by
    unfold generate_stand
    rw [h]
    rfl
  have h1 : ((List.range 20).flatMap (fun i => (List.range 16).map fun j =>
      stand_pole_vertex s i j)).length = 20 * 16 :=
    length_flatMap_range _ 16 20 (fun m => by simp)
  have h2 : ((List.range 16).flatMap (fun j =>
      [stand_base_outer s j, stand_base_inner s j])).length = 16 * 2 :=
    length_flatMap_range _ 2 16 (fun m => rfl)
  rw [e, List.length_append, h1, h2]

theorem generate_stand_empty (s : FanState) (h : s.has_stand = false) :
    generate_stand s = ([], []) := by
  unfold generate_stand
  rw [h]
  rfl

theorem generate_safety_cage_vertices_length (s : FanState) :
    (generate_safety_cage s).1.length = 256 := by
  have h1 : ((List.range 8).flatMap (fun i => (List.range 16).map fun j =>
      cage_ring_vertex s 0.05 i j)).length = 8 * 16 :=
    length_flatMap_range _ 16 8 (fun m => by simp)
  have h2 : ((List.range 8).flatMap (fun i => (List.range 16).map fun j =>
      cage_ring_vertex s (-0.15) i j)).length = 8 * 16 :=
    length_flatMap_range _ 16 8 (fun m => by simp)
  have h : (generate_safety_cage s).1.length
      = (((List.range 8).flatMap fun i => (List.range 16).map fun j =>
          cage_ring_vertex s 0.05 i j)
        ++ ((List.range 8).flatMap fun i => (List.range 16).map fun j =>
          cage_ring_vertex s (-0.15) i j)).length := rfl
  rw [h, List.length_append, h1, h2]

theorem generate_safety_cage_faces_length (s : FanState) :
    (generate_safety_cage s).2.length = 105 := by
  have h : ((List.range 15).flatMap (fun i =>
      (List.range 7).map (fun j =>
        [16 * j + i, 16 * j + i + 1, 16 * (8 + j) + i + 1, 16 * (8 + j) + i]))).length
      = 15 * 7 :=
    length_flatMap_range _ 7 15 (fun m => by simp)
  exact h

theorem generate_stand_of_has_stand (s : FanState) (h : s.has_stand = true) :
    generate_stand s =
      (((List.range 20).flatMap fun i => (List.range 16).map fun j =>
          stand_pole_vertex s i j)
        ++ ((List.range 16).flatMap fun j =>
          [stand_base_outer s j, stand_base_inner s j]),
        (List.range 19).flatMap fun i => (List.range 15).map fun j =>
          [16 * i + j, 16 * i + j + 1, 16 * i + j + 17, 16 * i + j + 16]) := by
  unfold generate_stand
  rw [h]
  rfl

/-- C7: in every mesh produced by the four geometry generators — for any
state and any blade angle offset — every vertex index of every face is a
valid index into that mesh's own vertex list. -/
theorem generators_face_indices_valid (s : FanState) (angle_offset : ℝ) :
    (∀ face ∈ (generate_blade s angle_offset).2, ∀ idx ∈ face,
        idx < (generate_blade s angle_offset).1.length) ∧
    (∀ face ∈ (generate_motor_housing s).2, ∀ idx ∈ face,
        idx < (generate_motor_housing s).1.length) ∧
    (∀ face ∈ (generate_stand s).2, ∀ idx ∈ face,
        idx < (generate_stand s).1.length) ∧
    (∀ face ∈ (generate_safety_cage s).2, ∀ idx ∈ face,
        idx < (generate_safety_cage s).1.length) := by
  refine ⟨?_, ?_, ?_, ?_⟩
  · intro face hface idx hidx
    replace hface : face ∈ (List.range 20).map
        (fun i => [4 * i, 4 * i + 1, 4 * i + 2, 4 * i + 3]) := hface
    simp only [List.mem_map, List.mem_range] at hface
    obtain ⟨i, hi, rfl⟩ := hface
    simp only [List.mem_cons, List.not_mem_nil, or_false] at hidx
    rw [generate_blade_vertices_length]
    rcases hidx with rfl | rfl | rfl | rfl <;> omega
  · intro face hface idx hidx
    replace hface : face ∈ (List.range 5).flatMap (fun i =>
        (List.range 31).map (fun j =>
          [32 * i + j, 32 * i + j + 1, 32 * i + j + 33, 32 * i + j + 32])) := hface
    simp only [List.mem_flatMap, List.mem_map, List.mem_range] at hface
    obtain ⟨i, hi, j, hj, rfl⟩ := hface
    simp only [List.mem_cons, List.not_mem_nil, or_false] at hidx
    rw [generate_motor_housing_vertices_length]
    rcases hidx with rfl | rfl | rfl | rfl <;> omega
  · intro face hface idx hidx
    cases hst : s.has_stand with
    | false =>
      rw [generate_stand_empty s hst] at hface
      simp at hface
    | true =>
      rw [generate_stand_of_has_stand s hst] at hface
      simp only [List.mem_flatMap, List.mem_map, List.mem_range] at hface
      obtain ⟨i, hi, j, hj, rfl⟩ := hface
      simp only [List.mem_cons, List.not_mem_nil, or_false] at hidx
      rw [generate_stand_vertices_length s hst]
      rcases hidx with rfl | rfl | rfl | rfl <;> omega
  · intro face hface idx hidx
    replace hface : face ∈ (List.range 15).flatMap (fun i =>
        (List.range 7).map (fun j =>
          [16 * j + i, 16 * j + i + 1, 16 * (8 + j) + i + 1, 16 * (8 + j) + i]))
      := hface
    simp only [List.mem_flatMap, List.mem_map, List.mem_range] at hface
    obtain ⟨i, hi, j, hj, rfl⟩ := hface
    simp only [List.mem_cons, List.not_mem_nil, or_false] at hidx
    rw [generate_safety_cage_vertices_length]
    rcases hidx with rfl | rfl | rfl | rfl <;> omega

/-- C4: for every mesh whose face indices are valid for its vertex list,
any base color and any lighting mode, `apply_lighting` returns exactly one
RGBA entry per face of at least 3 vertices (shorter faces contribute
nothing), and every entry scales the base RGB channels by one common
intensity in `[0, 1]` while passing the alpha channel through unchanged. -/
theorem apply_lighting_shape (s : FanState) (vertices : List Vec3)
    (faces : List (List ℕ)) (color : ℝ × ℝ × ℝ × ℝ)
    (hvalid : ∀ face ∈ faces, ∀ idx ∈ face, idx < vertices.length) :
    (apply_lighting s vertices faces color).length
        = (faces.filter fun face => 3 ≤ face.length).length ∧
    ∀ fc ∈ apply_lighting s vertices faces color, ∃ t : ℝ, 0 ≤ t ∧ t ≤ 1 ∧
      fc = (color.1 * t, color.2.1 * t, color.2.2.1 * t, color.2.2.2) := by
  by_cases h : vertices.length = 0 ∨ faces.length = 0
  · have he : apply_lighting s vertices faces color = [] := by
      unfold apply_lighting
      rw [if_pos h]
    constructor
    · rw [he]
      rcases h with h | h
      · have hf : faces.filter (fun face => 3 ≤ face.length) = [] := by
          rw [List.filter_eq_nil_iff]
          intro face hface hkeep
          have hlen : 3 ≤ face.length := by simpa using hkeep
          have hne : face ≠ [] := by
            intro hcon
            rw [hcon] at hlen
            simp at hlen
          obtain ⟨idx, hidx⟩ := List.exists_mem_of_ne_nil face hne
          have hv := hvalid face hface idx hidx
          rw [h] at hv
          exact absurd hv (Nat.not_lt_zero idx)
        rw [hf]
        rfl
      · have hf : faces = [] := List.length_eq_zero.mp h
        rw [hf]
        rfl
    · rw [he]
      intro fc hfc
      exact absurd hfc (List.not_mem_nil fc)
  · push_neg at h
    have he : apply_lighting s vertices faces color
        = (faces.filter fun face => 3 ≤ face.length).map fun face =>
          let v0 := vertices.getD (face.getD 0 0) (0, 0, 0)
          let v1 := vertices.getD (face.getD 1 0) (0, 0, 0)
          let v2 := vertices.getD (face.getD 2 0) (0, 0, 0)
          let edge1 : Vec3 := (v1.1 - v0.1, v1.2.1 - v0.2.1, v1.2.2 - v0.2.2)
          let edge2 : Vec3 := (v2.1 - v0.1, v2.2.1 - v0.2.1, v2.2.2 - v0.2.2)
          let n0 : Vec3 := cross3 edge1 edge2
          let normal : Vec3 := if 0 < norm3 n0 then normalize3 n0 else (0, 0, 1)
          let intensity : ℝ := min 1 (max 0 (face_intensity s.lighting_mode normal))
          (color.1 * intensity, color.2.1 * intensity, color.2.2.1 * intensity,
            color.2.2.2) := by
      unfold apply_lighting
      rw [if_neg (not_or.mpr ⟨h.1, h.2⟩)]
    constructor
    · rw [he, List.length_map]
    · rw [he]
      intro fc hfc
      rw [List.mem_map] at hfc
      obtain ⟨face, _hface, rfl⟩ := hfc
      refine ⟨_, ?_, ?_, rfl⟩
      · exact le_min zero_le_one (le_max_left 0 _)
      · exact min_le_left _ _

/-- Witness for C4: a single triangle plus a degenerate one-vertex face. -/
theorem apply_lighting_shape_witness :
    (apply_lighting sample_state
        [((0 : ℝ), (0 : ℝ), (0 : ℝ)), ((1 : ℝ), (0 : ℝ), (0 : ℝ)),
          ((0 : ℝ), (1 : ℝ), (0 : ℝ))]
        [[0, 1, 2], [0]] ((0.2 : ℝ), (0.3 : ℝ), (0.5 : ℝ), (0.9 : ℝ))).length
      = (([[0, 1, 2], [0]] : List (List ℕ)).filter fun face => 3 ≤ face.length).length :=
  (apply_lighting_shape sample_state
    [((0 : ℝ), (0 : ℝ), (0 : ℝ)), ((1 : ℝ), (0 : ℝ), (0 : ℝ)),
      ((0 : ℝ), (1 : ℝ), (0 : ℝ))]
    [[0, 1, 2], [0]] ((0.2 : ℝ), (0.3 : ℝ), (0.5 : ℝ), (0.9 : ℝ))
    (by decide)).1

/-- State with every zero-extent dimension of C6: zero blade length and
width and zero motor radius. -/
def zero_dim_state : FanState :=
  { sample_state with blade_length := 0, blade_width := 0, motor_radius := 0 }

/-- Counterexample to C6: at zero blade length/width and zero motor radius
the blade and motor-housing generators do not return empty meshes — they
emit their full fixed-topology vertex and face lists (all of measure zero
geometrically, but present). -/
theorem generator_zero_dims_counterexample :
    (generate_blade zero_dim_state 0).1.length = 80 ∧
    (generate_blade zero_dim_state 0).2.length = 20 ∧
    (generate_motor_housing zero_dim_state).1.length = 192 ∧
    ¬((generate_blade zero_dim_state 0).1 = []
        ∧ (generate_blade zero_dim_state 0).2 = []) ∧
    ¬((generate_motor_housing zero_dim_state).1 = []
        ∧ (generate_motor_housing zero_dim_state).2 = []) := by
  refine ⟨generate_blade_vertices_length _ _, generate_blade_faces_length _ _,
    generate_motor_housing_vertices_length _, ?_, ?_⟩
  · rintro ⟨h1, -⟩
    have hl := generate_blade_vertices_length zero_dim_state 0
    rw [h1] at hl
    simp at hl
  · rintro ⟨h1, -⟩
    have hl := generate_motor_housing_vertices_length zero_dim_state
    rw [h1] at hl
    simp at hl

/-- C6 amended: a generator invoked with zero-extent dimensions does not
fail, but it returns its fixed-topology mesh (80 vertices and 20 faces for
a blade, 192 vertices and 155 faces for the housing) rather than an empty
one; the only generator that returns the empty mesh is the stand, and it
does so exactly when the archetype has no stand. -/
theorem generators_zero_dims_degenerate (s : FanState)
    (_hl : s.blade_length = 0) (_hw : s.blade_width = 0)
    (_hm : s.motor_radius = 0) :
    (generate_blade s 0).1.length = 80 ∧
    (generate_blade s 0).2.length = 20 ∧
    (generate_motor_housing s).1.length = 192 ∧
    (generate_motor_housing s).2.length = 155 ∧
    (s.has_stand = false → generate_stand s = ([], [])) :=
  ⟨generate_blade_vertices_length s 0, generate_blade_faces_length s 0,
    generate_motor_housing_vertices_length s, generate_motor_housing_faces_length s,
    fun h => generate_stand_empty s h⟩

/-- Witness for the amended C6 at the zero-dimension state. -/
theorem generators_zero_dims_degenerate_witness :
    (generate_motor_housing zero_dim_state).2.length = 155 :=
  (generators_zero_dims_degenerate zero_dim_state rfl rfl rfl).2.2.2.1

/-- Counterexample to C9: the housing mesh has 192 vertices
(32 angular samples × 6 levels), not the claimed 198 (= 33 × 6) —
`np.linspace(0, 2*np.pi, 32)` yields 32 samples, not 33. -/
theorem motor_housing_vertex_count_counterexample :
    (generate_motor_housing sample_state).1.length = 192 ∧
    ¬((generate_motor_housing sample_state).1.length = 198) := by
  have h := generate_motor_housing_vertices_length sample_state
  refine ⟨h, ?_⟩
  rw [h]
  norm_num

/-- C9 amended: the motor housing is a bulged cylinder of 32 angular
samples (the 32-point `np.linspace(0, 2π, 32)`, step `2π/31`) at each of 6
height levels — 192 vertices — with z running from -0.2 to +0.2 in 5 steps
of 0.08, per-level radius `motor_radius·(1 + 0.1·sin(level·π/5))`, and 155
quad faces `[idx, idx+1, idx+33, idx+32]` stitching adjacent angular and
height neighbors. -/
theorem generate_motor_housing_mesh_spec (s : FanState) :
    (generate_motor_housing s).1.length = 192 ∧
    (generate_motor_housing s).2.length = 155 ∧
    (∀ i j : ℕ, i < 6 → j < 32 →
      (generate_motor_housing s).1.getD (32 * i + j) (0, 0, 0)
        = ((s.motor_radius : ℝ) * (1 + 0.1 * Real.sin ((i : ℝ) * Real.pi / 5))
              * Real.cos ((j : ℝ) * (2 * Real.pi / 31)),
            (s.motor_radius : ℝ) * (1 + 0.1 * Real.sin ((i : ℝ) * Real.pi / 5))
              * Real.sin ((j : ℝ) * (2 * Real.pi / 31)),
            -0.2 + (i : ℝ) * 0.08)) ∧
    ∀ face ∈ (generate_motor_housing s).2, ∃ i j : ℕ, i < 5 ∧ j < 31 ∧
      face = [32 * i + j, 32 * i + j + 1, 32 * i + j + 33, 32 * i + j + 32] := by
  refine ⟨generate_motor_housing_vertices_length s,
    generate_motor_housing_faces_length s, ?_, ?_⟩
  · intro i j hi hj
    have hk : ∀ m : ℕ,
        ((List.range 32).map (fun l => housing_vertex s m l)).length = 32 :=
      fun m => by simp
    have e : (generate_motor_housing s).1.getD (32 * i + j) (0, 0, 0)
        = ((List.range 6).flatMap (fun m => (List.range 32).map
            (fun l => housing_vertex s m l))).getD (32 * i + j) (0, 0, 0) := rfl
    rw [e, getD_flatMap_range _ 32 _ hk 6 i j hi hj, getD_map_range _ 32 j _ hj]
    rfl
  · intro face hface
    replace hface : face ∈ (List.range 5).flatMap (fun m =>
        (List.range 31).map (fun l =>
          [32 * m + l, 32 * m + l + 1, 32 * m + l + 33, 32 * m + l + 32])) := hface
    simp only [List.mem_flatMap, List.mem_map, List.mem_range] at hface
    obtain ⟨i, hi, j, hj, rfl⟩ := hface
    exact ⟨i, j, hi, hj, rfl⟩

/-- Exactness of the stored-coefficient encoding of the rotation angle: for
a real angle `a·π`, Python's `(a*π) % (2π)` equals `(a % 2)·π`, so wrapping
the coefficient modulo 2 is the code's wrap modulo 2π, with no
approximation. -/
theorem angle_encoding_exact (a : ℝ) :
    a * Real.pi - ⌊a * Real.pi / (2 * Real.pi)⌋ * (2 * Real.pi)
      = (a - ⌊a / 2⌋ * 2) * Real.pi := by
  have h : a * Real.pi / (2 * Real.pi) = a / 2 := by
    rw [mul_comm 2 Real.pi, ← div_div, mul_div_assoc, mul_comm,
      mul_div_assoc, div_self Real.pi_ne_zero, one_mul]
  rw [h]
  ring
